import Mathlib

/-!
Shallow embedding of the `tia-openness-api-client` repository
(`src/tia_portal/config.py` and `src/examples/read_blocks_wsl.py`)
together with proofs about the claims of the specification.

Conventions:
* Python exceptions are modelled with `Except` / `Option`; a Python
  function that swallows every exception becomes a total Lean function.
* The process environment (files, environment variables, subprocess
  results, vendor API responses, interactive input) is passed in
  explicitly as oracle values, since the Python code reads it ambiently.
-/

namespace TiaClient

/-- Modelled from the spec: `tia_portal/version.py` is not part of the
provided sources; the spec's version registry is "an enumerated set of
supported vendor-API versions" `V15, V15_1, V16, V17, V18, V19`
(spec §3 Data Model; also the CLI `choices` list in
`read_blocks_wsl.py`). -/
inductive TiaVersion where
  | V15
  | V15_1
  | V16
  | V17
  | V18
  | V19
  deriving DecidableEq, Repr

/-- `version.name` of a Python `enum` member: the member's declared name. -/
def TiaVersion.name : TiaVersion → String
  | .V15 => "V15"
  | .V15_1 => "V15_1"
  | .V16 => "V16"
  | .V17 => "V17"
  | .V18 => "V18"
  | .V19 => "V19"

/-- Python `TiaVersion[s]`: lookup of an enum member by name.  `none`
models the `KeyError` a Python `Enum` raises for an unknown name. -/
def TiaVersion.fromName (s : String) : Option TiaVersion :=
  if s = "V15" then some .V15
  else if s = "V15_1" then some .V15_1
  else if s = "V16" then some .V16
  else if s = "V17" then some .V17
  else if s = "V18" then some .V18
  else if s = "V19" then some .V19
  else none

/-! ## The settings file (`config.ini`) as read/written by `configparser`

Only the parts of `configparser` exercised by `config.py` are modelled:
the `DEFAULT` section's key `version`, whether a `USER` section exists,
and the `USER` section's own key `version`.  `configparser` makes every
key of `DEFAULT` visible in every other section as a fallback, so
`config["USER"].get("version")` returns the `USER` value if set, else
the `DEFAULT` value if set, else `None`. -/

structure ConfigFile where
  /-- value of key `version` in section `DEFAULT`, if present -/
  default_version : Option String
  /-- whether a `USER` section exists (`config["USER"]` raises
  `KeyError` when it does not) -/
  user_section : Bool
  /-- value of key `version` set in section `USER` itself, if present -/
  user_version : Option String
  deriving DecidableEq, Repr

/-- `config["USER"].get("version")` with `configparser`'s DEFAULT
fallback: the `USER` value if present, else the `DEFAULT` value. -/
def ConfigFile.userGetVersion (cfg : ConfigFile) : Option String :=
  match cfg.user_version with
  | some v => some v
  | none => cfg.default_version

/-- A fresh `ConfigParser()` that has read no file (what
`config.read(CONFIG_PATH)` yields when the file does not exist). -/
def emptyConfig : ConfigFile :=
  { default_version := none, user_section := false, user_version := none }

/-- The file `load()` writes when `CONFIG_PATH` does not exist:
`config["DEFAULT"] = {"version": "V19"}` and `config["USER"] = {}`
(config.py lines 156-160). -/
def defaultConfig : ConfigFile :=
  { default_version := some "V19", user_section := true, user_version := none }

/-- The compiled-in default version, `VERSION = TiaVersion.V19`
(config.py line 57). -/
def defaultVERSION : TiaVersion := TiaVersion.V19

/-- The slice of filesystem state `config.py` touches: whether the data
directory exists, and the settings file's contents (`none` = the file
does not exist). -/
structure FSState where
  data_path_exists : Bool
  config_file : Option ConfigFile
  deriving DecidableEq, Repr

/-- The exceptions `load` / `set_version` can raise. -/
inductive ConfigError where
  /-- `KeyError` from `config["USER"]` when no `USER` section exists -/
  | keyErrorUserSection
  /-- `KeyError` from `config["DEFAULT"]["version"]` when the key is absent -/
  | keyErrorDefaultVersion
  /-- `KeyError` from `TiaVersion[name]` for an unrecognized version name -/
  | lookupError (name : String)
  deriving DecidableEq, Repr

/-- `config.load()` (config.py lines 148-170).  Creates the data
directory and a default settings file when missing, then resolves the
version: `TiaVersion[config["DEFAULT"]["version"]]` if
`config["USER"].get("version") is None` else
`TiaVersion[config["USER"]["version"]]`, and stores it in the
process-wide `VERSION` (modelled as the returned value). -/
def load (s : FSState) : Except ConfigError (FSState × TiaVersion) :=
  -- os.makedirs(DATA_PATH) if missing; write the default file if missing
  let cfg := match s.config_file with
    | none => defaultConfig
    | some c => c
  let s' : FSState := { data_path_exists := true, config_file := some cfg }
  -- config.read(CONFIG_PATH); config["USER"] raises if the section is absent
  if cfg.user_section = false then
    Except.error ConfigError.keyErrorUserSection
  else
    match cfg.userGetVersion with
    | none =>
      -- config["USER"].get("version") is None: both USER and DEFAULT unset
      match cfg.default_version with
      | none => Except.error ConfigError.keyErrorDefaultVersion
      | some dv =>
        match TiaVersion.fromName dv with
        | none => Except.error (ConfigError.lookupError dv)
        | some v => Except.ok (s', v)
    | some uv =>
      -- config["USER"]["version"] (DEFAULT fallback applies) then TiaVersion[...]
      match TiaVersion.fromName uv with
      | none => Except.error (ConfigError.lookupError uv)
      | some v => Except.ok (s', v)

/-- `config.set_version(version)` (config.py lines 173-184).  Reads the
settings file (a missing file reads as empty), writes
`config["USER"]["version"] = version.name`, and writes the file back.
`config["USER"]` raises `KeyError` when no `USER` section exists. -/
def set_version (s : FSState) (version : TiaVersion) :
    Except ConfigError FSState :=
  let cfg := match s.config_file with
    | none => emptyConfig
    | some c => c
  if cfg.user_section = false then
    Except.error ConfigError.keyErrorUserSection
  else
    Except.ok { s with
      config_file := some ({ cfg with user_version := some version.name }) }

/-! ## Path translation (`config.py` lines 60-115)

The external `wslpath` utility is a subprocess; it is modelled as an
oracle `String → Option String`: `some out` is the stripped stdout of a
successful run, `none` is any failure (utility missing, non-zero exit —
`check=True` raises — or any other exception).  The Python functions
catch every exception and return the input unchanged, so the Lean
embeddings are total and return `String`. -/

/-- `re.match(r"^[A-Za-z]:\\", path)`: a drive-letter Windows path
prefix. -/
def isWindowsPathFormat (path : String) : Bool :=
  match path.data with
  | c1 :: c2 :: c3 :: _ => c1.isAlpha && c2 = ':' && c3 = '\\'
  | _ => false

/-- `config.wsl_path_to_windows(linux_path)` (config.py lines 60-86),
parameterized by the `IS_WSL` flag and the `wslpath -w` oracle. -/
def wsl_path_to_windows (is_wsl : Bool) (wslpathW : String → Option String)
    (linux_path : String) : String :=
  if !is_wsl then linux_path
  else if isWindowsPathFormat linux_path then linux_path
  else
    match wslpathW linux_path with
    | some win_path => win_path
    | none => linux_path

/-- Python `path.startswith("/")`: a leading-slash Linux path. -/
def startsWithSlash (path : String) : Bool :=
  match path.data with
  | c :: _ => c = '/'
  | [] => false

/-- `config.windows_path_to_wsl(windows_path)` (config.py lines 89-115),
parameterized by the `IS_WSL` flag and the `wslpath -u` oracle. -/
def windows_path_to_wsl (is_wsl : Bool) (wslpathU : String → Option String)
    (windows_path : String) : String :=
  if !is_wsl then windows_path
  else if startsWithSlash windows_path then windows_path
  else
    match wslpathU windows_path with
    | some linux_path => linux_path
    | none => windows_path

/-! ## Environment detection (`config.py` lines 22-49) -/

/-- `needle` occurs as a contiguous sublist of `haystack` (Python's
`in` on strings). -/
def containsSub (haystack needle : List Char) : Bool :=
  match haystack with
  | [] => needle.isEmpty
  | _ :: t => needle.isPrefixOf haystack || containsSub t needle

/-- Python `"microsoft" in s.lower()` (lower-casing character by
character). -/
def hasMicrosoft (s : String) : Bool :=
  containsSub (s.data.map Char.toLower) "microsoft".data

/-- The machine state `detect_wsl` probes.  A `none` file content means
the pseudo-file cannot be opened or read (the `open`/`read` raises); a
`none` environment variable means it is unset. -/
structure Machine where
  /-- content of `/proc/version`, `none` if unreadable -/
  proc_version : Option String
  /-- value of the environment variable `WSL_DISTRO_NAME` -/
  wsl_distro_name : Option String
  /-- result of `platform.system()` -/
  platform_system : String
  /-- content of `/proc/sys/kernel/osrelease`, `none` if unreadable -/
  osrelease : Option String
  deriving DecidableEq, Repr

/-- Python truthiness of `os.environ.get("WSL_DISTRO_NAME")`: set and
non-empty. -/
def envTruthy : Option String → Bool
  | none => false
  | some s => !s.isEmpty

/-- Probe (a): `"microsoft" in open("/proc/version").read().lower()`,
with any exception swallowed (an unreadable file is no match). -/
def probeProcVersion (m : Machine) : Bool :=
  match m.proc_version with
  | some content => hasMicrosoft content
  | none => false

/-- Probe (b): `os.environ.get("WSL_DISTRO_NAME")` is truthy. -/
def probeEnvVar (m : Machine) : Bool :=
  envTruthy m.wsl_distro_name

/-- Probe (c): `platform.system() == "Linux"` and `"microsoft" in
open("/proc/sys/kernel/osrelease").read().lower()`, with any exception
swallowed. -/
def probeOsRelease (m : Machine) : Bool :=
  m.platform_system = "Linux" &&
    (match m.osrelease with
     | some content => hasMicrosoft content
     | none => false)

/-- `config.detect_wsl()` (config.py lines 22-49). -/
def detect_wsl (m : Machine) : Bool :=
  if probeProcVersion m then true
  else if probeEnvVar m then true
  else if probeOsRelease m then true
  else false

/-! ## The entry script (`examples/read_blocks_wsl.py`)

Vendor-API calls are oracles carried in a `World`.  A vendor call that
may raise is an `Except String _` (the string is the exception
message).  `sys.exit(n)` raises `SystemExit`, which the script's
`except Exception` does NOT catch, while every other exception raised
inside the outer `try` IS caught there, after which `main` returns
normally and the interpreter exits with code 0. -/

/-- A discovered vendor-IDE process (`TiaPortalProcess`): its `Id` and
`ProjectPath` (`none` = no open project; the script tests it with
Python truthiness, so an empty path string is also "no project"). -/
structure TiaProcess where
  id : Nat
  projectPath : Option String
  deriving DecidableEq, Repr

/-- One PLC software block as seen by the script: its `name` attribute
and the outcome of `block.export()` (`ok path` or a raised exception). -/
structure BlockData where
  name : String
  exportResult : Except String String
  deriving Repr

/-- One PLC as seen by the script: `get_software()`,
`get_all_blocks(True)` and the per-PLC `project.compile()` call are
oracles that may raise. -/
structure PlcData where
  name : String
  softwareResult : Except String Unit
  blocksResult : Except String (List BlockData)
  compileResult : Except String Unit
  deriving Repr

/-- All oracle inputs of one run of `main`. -/
structure World where
  /-- filesystem state seen by `tia_config.load()` / `set_version` -/
  fs : FSState
  /-- parsed `--version` argument, `none` when not given -/
  versionArg : Option TiaVersion
  /-- result of `tia.TiaPortal.GetProcesses()` -/
  getProcessesResult : Except String (List TiaProcess)
  /-- the string returned by `input(...)` for instance selection -/
  userInput : String
  /-- result of `selected_process.Attach()` -/
  attachResult : Except String Unit
  /-- result of evaluating `tia_portal.Projects[0]` -/
  projects0 : Except String Unit
  /-- result of `tia_client.project.get_plcs()` -/
  getPlcsResult : Except String (List PlcData)

/-- Observable outcome of a run of `main`: the interpreter exit code,
how many `Attach()` calls were made, which blocks the export loop
visited (in order), the `Exported S of N blocks` reports printed, and
the message of an exception caught by the outer `except Exception`
(`none` when nothing was caught). -/
structure RunTrace where
  exitCode : Nat
  attachAttempts : Nat
  blocksVisited : List String
  reports : List (Nat × Nat)
  caughtTopLevel : Option String
  deriving DecidableEq, Repr

/-- `get_active_tia_portal_instances()` (read_blocks_wsl.py lines
54-81): returns the process list, or `[]` when the vendor call raises
or yields nothing (both paths print a message and return a list). -/
def get_active_tia_portal_instances
    (r : Except String (List TiaProcess)) : List TiaProcess :=
  match r with
  | .ok ps => ps
  | .error _ => []

/-- `s.strip()`: drop whitespace from both ends. -/
def pyStrip (cs : List Char) : List Char :=
  ((cs.dropWhile Char.isWhitespace).reverse.dropWhile Char.isWhitespace).reverse

/-- Decimal digit characters to the number they denote. -/
def digitsToNat (ds : List Char) : Nat :=
  ds.foldl (fun acc c => acc * 10 + (c.toNat - 48)) 0

/-- Python `int(s)` on interactive input: optional surrounding
whitespace, optional sign, one or more ASCII digits; `none` models the
`ValueError` raised otherwise.  (Underscore digit-grouping and
non-ASCII digits are not modelled.) -/
def parsePyInt (s : String) : Option Int :=
  let t := pyStrip s.data
  let (sign, digits) : Int × List Char :=
    match t with
    | '-' :: ds => (-1, ds)
    | '+' :: ds => (1, ds)
    | ds => (1, ds)
  if !digits.isEmpty && digits.all Char.isDigit then
    some (sign * (digitsToNat digits : Nat))
  else none

/-- Accumulator of the per-block export loop (read_blocks_wsl.py lines
222-236): `export_path` (`None` initially, last successful path after),
`successful_exports`, and the blocks visited so far. -/
structure ExportAcc where
  exportPath : Option String
  successfulExports : Nat
  visited : List String
  deriving DecidableEq, Repr

/-- One iteration of the export loop: `try: export_path = block.export();
successful_exports += 1 except: log and continue`. -/
def exportStep (acc : ExportAcc) (b : BlockData) : ExportAcc :=
  match b.exportResult with
  | .ok p =>
    { exportPath := some p
      successfulExports := acc.successfulExports + 1
      visited := acc.visited ++ [b.name] }
  | .error _ =>
    { acc with visited := acc.visited ++ [b.name] }

/-- The whole export loop (read_blocks_wsl.py lines 225-236). -/
def exportLoop (blocks : List BlockData) : ExportAcc :=
  blocks.foldl exportStep { exportPath := none, successfulExports := 0, visited := [] }

/-- Python truthiness of `export_path` at line 238: not `None` and not
the empty string. -/
def pathTruthy : Option String → Bool
  | none => false
  | some p => !p.isEmpty

/-- The `Exported S of N blocks` summary for one PLC (read_blocks_wsl.py
lines 238-243): printed only `if export_path:`. -/
def plcReport (blocks : List BlockData) : Option (Nat × Nat) :=
  let r := exportLoop blocks
  if pathTruthy r.exportPath then some (r.successfulExports, blocks.length)
  else none

/-- The `for plc in plcs` loop (read_blocks_wsl.py lines 204-243):
returns the visited block names, the reports printed, and the message
of the first exception raised by `get_software` / `get_all_blocks` /
`compile` (which aborts the loop and propagates to the outer handler). -/
def plcLoop : List PlcData → List String × List (Nat × Nat) × Option String
  | [] => ([], [], none)
  | plc :: rest =>
    match plc.softwareResult with
    | .error e => ([], [], some e)
    | .ok _ =>
      match plc.blocksResult with
      | .error e => ([], [], some e)
      | .ok blocks =>
        match plc.compileResult with
        | .error e => ([], [], some e)
        | .ok _ =>
          let r := exportLoop blocks
          let reps : List (Nat × Nat) :=
            match plcReport blocks with
            | some rep => [rep]
            | none => []
          let (v2, reps2, err) := plcLoop rest
          (r.visited ++ v2, reps ++ reps2, err)

/-- The configuration phase of `main` (read_blocks_wsl.py lines
104-113): `tia_config.load()`, then `tia_config.set_version(...)` when
`--version` was given; any exception is caught there and turns into
`sys.exit(1)`. -/
def configPhase (fs : FSState) (versionArg : Option TiaVersion) :
    Except ConfigError Unit :=
  match load fs with
  | .error e => Except.error e
  | .ok (fs', _) =>
    match versionArg with
    | none => Except.ok ()
    | some v =>
      match set_version fs' v with
      | .error e => Except.error e
      | .ok _ => Except.ok ()

/-- The part of `main` from `selected_process.Attach()` on
(read_blocks_wsl.py lines 151-243), for the chosen process. -/
def mainAttach (w : World) (selected : TiaProcess) : RunTrace :=
  match w.attachResult with
  | .error _ =>
    -- except around Attach(): print guidance and sys.exit(1)
    ⟨1, 1, [], [], none⟩
  | .ok _ =>
    -- if not selected_process.ProjectPath: sys.exit(1)
    if !pathTruthy selected.projectPath then ⟨1, 1, [], [], none⟩
    else
      match w.projects0 with
      | .error e => ⟨0, 1, [], [], some e⟩  -- caught by the outer except
      | .ok _ =>
        match w.getPlcsResult with
        | .error e => ⟨0, 1, [], [], some e⟩  -- caught by the outer except
        | .ok plcs =>
          -- if len(plcs) == 0: sys.exit(0)
          if plcs.length = 0 then ⟨0, 1, [], [], none⟩
          else
            let (visited, reps, err) := plcLoop plcs
            ⟨0, 1, visited, reps, err⟩

/-- `main()` (read_blocks_wsl.py lines 84-252).  Exit code conventions:
`sys.exit(n)` raises `SystemExit`, which `except Exception` does not
catch, so it always yields exit code `n`; an exception caught by the
outer handler lets `main` return normally, exit code 0. -/
def main (w : World) : RunTrace :=
  match configPhase w.fs w.versionArg with
  | .error _ => ⟨1, 0, [], [], none⟩  -- caught at line 111, sys.exit(1)
  | .ok _ =>
    let tia_processes := get_active_tia_portal_instances w.getProcessesResult
    -- if not tia_processes: sys.exit(1)
    match tia_processes with
    | [] => ⟨1, 0, [], [], none⟩
    | [p] => mainAttach w p
    | p :: q :: rest =>
      -- multiple instances: selection = int(input(...))
      let ps := p :: q :: rest
      match parsePyInt w.userInput with
      | none =>
        -- int() raises ValueError, caught by the outer except: exit code 0
        ⟨0, 0, [], [], some "ValueError"⟩
      | some selection =>
        -- if selection < 1 or selection > len(tia_processes): sys.exit(1)
        if selection < 1 ∨ selection > (ps.length : Int) then
          ⟨1, 0, [], [], none⟩
        else
          -- tia_processes[selection - 1]; the range check above makes the
          -- index valid, so getD's fallback is never consulted
          mainAttach w (ps.getD (selection - 1).toNat p)

/-! ## Helper definitions for the proofs -/

/-- Whether `block.export()` succeeds for this block. -/
def isExportOk (b : BlockData) : Bool :=
  match b.exportResult with
  | .ok _ => true
  | .error _ => false

/-- Number of blocks whose export fails. -/
def countFailures (blocks : List BlockData) : Nat :=
  (blocks.filter (fun b => !isExportOk b)).length

/-- The path of the last successful export in the list, if any: the
value `export_path` holds after the loop. -/
def lastSuccessPath : List BlockData → Option String
  | [] => none
  | b :: rest =>
    match lastSuccessPath rest with
    | some p => some p
    | none =>
      match b.exportResult with
      | .ok p => some p
      | .error _ => none

/-- A run in which the vendor reports no running instances and
everything else is benign. -/
def emptyDiscoveryWorld : World :=
  { fs := { data_path_exists := false, config_file := none }
    versionArg := none
    getProcessesResult := .ok []
    userInput := ""
    attachResult := .ok ()
    projects0 := .ok ()
    getPlcsResult := .ok [] }

/-- A run in which `tia.TiaPortal.GetProcesses()` itself raises. -/
def errorDiscoveryWorld : World :=
  { fs := { data_path_exists := false, config_file := none }
    versionArg := none
    getProcessesResult := .error "COM failure"
    userInput := ""
    attachResult := .ok ()
    projects0 := .ok ()
    getPlcsResult := .ok [] }

/-- Two running instances and the non-numeric interactive input
`"abc"`. -/
def nonNumericInputWorld : World :=
  { fs := { data_path_exists := false, config_file := none }
    versionArg := none
    getProcessesResult := .ok [⟨101, some "C:\\P1\\P1.ap19"⟩, ⟨202, some "C:\\P2\\P2.ap19"⟩]
    userInput := "abc"
    attachResult := .ok ()
    projects0 := .ok ()
    getPlcsResult := .ok [] }

/-- Two running instances and the out-of-range interactive selection
`"5"`. -/
def outOfRangeInputWorld : World :=
  { fs := { data_path_exists := false, config_file := none }
    versionArg := none
    getProcessesResult := .ok [⟨101, some "C:\\P1\\P1.ap19"⟩, ⟨202, some "C:\\P2\\P2.ap19"⟩]
    userInput := "5"
    attachResult := .ok ()
    projects0 := .ok ()
    getPlcsResult := .ok [] }

/-- Three blocks of which exactly the middle one fails to export. -/
def sampleBlocks : List BlockData :=
  [ { name := "OB1", exportResult := .ok "C:\\exports\\OB1.xml" }
  , { name := "FB2", exportResult := .error "unsupported block type" }
  , { name := "DB3", exportResult := .ok "C:\\exports\\DB3.xml" } ]

/-! ## General lemmas -/

theorem TiaVersion.fromName_name (v : TiaVersion) :
    TiaVersion.fromName v.name = some v := by
  cases v <;> rfl

/-! ## Claims about the configuration store -/

/-- C2: for every supported version `X`, `set_version(X)` followed by
`load()` sets the process-wide current version to `X`, whatever
`DEFAULT.version` holds (the hypotheses say only that the settings file
exists and has a `USER` section, the state every `load()` leaves
behind; `cfg.default_version` is unconstrained). -/
theorem spec_C2 (s : FSState) (cfg : ConfigFile) (v : TiaVersion)
    (hfile : s.config_file = some cfg) (huser : cfg.user_section = true) :
    ∃ s', set_version s v = Except.ok s' ∧
      ∃ s'', load s' = Except.ok (s'', v) := by
  refine ⟨{ s with config_file := some ⟨cfg.default_version, cfg.user_section, some v.name⟩ }, ?_, ?_⟩
  · simp [set_version, hfile, huser]
  · refine ⟨⟨true, some ⟨cfg.default_version, cfg.user_section, some v.name⟩⟩, ?_⟩
    simp [load, huser, ConfigFile.userGetVersion, TiaVersion.fromName_name]

theorem spec_C2_witness :
    ∃ s', set_version ⟨true, some ⟨some "V15", true, none⟩⟩ TiaVersion.V17 = Except.ok s' ∧
      ∃ s'', load s' = Except.ok (s'', TiaVersion.V17) :=
  spec_C2 _ ⟨some "V15", true, none⟩ TiaVersion.V17 rfl rfl

/-- C3: when the settings file does not exist, `load()` creates the
data directory and a settings file whose `DEFAULT.version` is the
compiled-in default `V19`, and sets the current version to it. -/
theorem spec_C3 (s : FSState) (hfile : s.config_file = none) :
    load s = Except.ok
      ({ data_path_exists := true, config_file := some defaultConfig },
       TiaVersion.V19)
    ∧ defaultConfig.default_version = some "V19"
    ∧ defaultVERSION = TiaVersion.V19 := by
  refine ⟨?_, rfl, rfl⟩
  simp [load, hfile, defaultConfig, ConfigFile.userGetVersion, TiaVersion.fromName]

theorem spec_C3_witness :
    load { data_path_exists := false, config_file := none } = Except.ok
      ({ data_path_exists := true, config_file := some defaultConfig },
       TiaVersion.V19)
    ∧ defaultConfig.default_version = some "V19"
    ∧ defaultVERSION = TiaVersion.V19 :=
  spec_C3 { data_path_exists := false, config_file := none } rfl

/-- C8: when the settings file resolves (`USER.version`, with
`configparser`'s DEFAULT fallback) to a version name that is not a
member of the supported enumeration, `load()` returns the lookup error
to the caller: no branch of `load` catches it and no default is
substituted. -/
theorem spec_C8 (s : FSState) (cfg : ConfigFile) (n : String)
    (hfile : s.config_file = some cfg) (huser : cfg.user_section = true)
    (hres : cfg.userGetVersion = some n)
    (hbad : TiaVersion.fromName n = none) :
    load s = Except.error (ConfigError.lookupError n) := by
  simp [load, hfile, huser, hres, hbad]

theorem spec_C8_witness :
    load ⟨true, some ⟨some "V99", true, none⟩⟩
      = Except.error (ConfigError.lookupError "V99") :=
  spec_C8 _ ⟨some "V99", true, none⟩ "V99" rfl rfl rfl rfl

/-- C10: when the settings file is absent, `set_version` raises
`KeyError` at `config["USER"]` (a fresh parser that read nothing has no
`USER` section) instead of creating the file. -/
theorem spec_C10 (s : FSState) (v : TiaVersion)
    (hfile : s.config_file = none) :
    set_version s v = Except.error ConfigError.keyErrorUserSection := by
  simp [set_version, hfile, emptyConfig]

theorem spec_C10_witness :
    set_version { data_path_exists := true, config_file := none }
      TiaVersion.V17 = Except.error ConfigError.keyErrorUserSection :=
  spec_C10 _ TiaVersion.V17 rfl

/-! ## Claims about path translation and environment detection -/

/-- C6: each path-translation function is the identity outside the
compatibility layer, for every input string; inside it, input already
in the target format (drive-letter prefix resp. leading slash) is
returned unchanged.  The conclusion holds for every oracle `f` / `g`,
which formalizes that the translation utility is not consulted on
these paths. -/
theorem spec_C6 (f g : String → Option String) (p : String) :
    (wsl_path_to_windows false f p = p ∧ windows_path_to_wsl false g p = p)
    ∧ (isWindowsPathFormat p = true → wsl_path_to_windows true f p = p)
    ∧ (startsWithSlash p = true → windows_path_to_wsl true g p = p) := by
  refine ⟨⟨rfl, rfl⟩, ?_, ?_⟩
  · intro h
    simp [wsl_path_to_windows, h]
  · intro h
    simp [windows_path_to_wsl, h]

theorem spec_C6_witness :
    wsl_path_to_windows false (fun s => some (s ++ "!")) "/home/u" = "/home/u"
    ∧ wsl_path_to_windows true (fun s => some (s ++ "!")) "C:\\Users" = "C:\\Users"
    ∧ windows_path_to_wsl true (fun s => some (s ++ "!")) "/mnt/c" = "/mnt/c" :=
  ⟨(spec_C6 (fun s => some (s ++ "!")) (fun s => some (s ++ "!")) "/home/u").1.1,
   (spec_C6 (fun s => some (s ++ "!")) (fun s => some (s ++ "!")) "C:\\Users").2.1 (by decide),
   (spec_C6 (fun s => some (s ++ "!")) (fun s => some (s ++ "!")) "/mnt/c").2.2 (by decide)⟩

/-- C7: when the external translation utility fails (missing, non-zero
exit, or any other exception — oracle value `none`), each function
returns its input unchanged; both functions are total, so no exception
escapes to the caller. -/
theorem spec_C7 (f g : String → Option String) (p q : String)
    (hf : f p = none) (hg : g q = none) :
    wsl_path_to_windows true f p = p ∧ windows_path_to_wsl true g q = q := by
  constructor
  · by_cases h : isWindowsPathFormat p
    · simp [wsl_path_to_windows, h]
    · simp [wsl_path_to_windows, h, hf]
  · by_cases h : startsWithSlash q
    · simp [windows_path_to_wsl, h]
    · simp [windows_path_to_wsl, h, hg]

theorem spec_C7_witness :
    wsl_path_to_windows true (fun _ => none) "/tmp/a" = "/tmp/a"
    ∧ windows_path_to_wsl true (fun _ => none) "D:\\x" = "D:\\x" :=
  spec_C7 (fun _ => none) (fun _ => none) "/tmp/a" "D:\\x" rfl rfl

/-- C9: `detect_wsl` probes `/proc/version`, then `WSL_DISTRO_NAME`,
then `/proc/sys/kernel/osrelease` (the latter gated on
`platform.system() == "Linux"`); it returns true at the first positive
probe, false when no probe matches, and false — not an exception — when
every probe fails (`detect_wsl` is a total function; unreadable
pseudo-files are the `none` cases of `Machine`). -/
theorem spec_C9 (m : Machine) :
    (probeProcVersion m = true → detect_wsl m = true)
    ∧ (probeProcVersion m = false → probeEnvVar m = true →
        detect_wsl m = true)
    ∧ (probeProcVersion m = false → probeEnvVar m = false →
        probeOsRelease m = true → detect_wsl m = true)
    ∧ (probeProcVersion m = false → probeEnvVar m = false →
        probeOsRelease m = false → detect_wsl m = false)
    ∧ (m.proc_version = none → m.wsl_distro_name = none →
        m.osrelease = none → detect_wsl m = false) := by
  refine ⟨?_, ?_, ?_, ?_, ?_⟩
  · intro h1
    simp [detect_wsl, h1]
  · intro h1 h2
    simp [detect_wsl, h1, h2]
  · intro h1 h2 h3
    simp [detect_wsl, h1, h2, h3]
  · intro h1 h2 h3
    simp [detect_wsl, h1, h2, h3]
  · intro h1 h2 h3
    simp [detect_wsl, probeProcVersion, probeEnvVar, probeOsRelease,
      envTruthy, h1, h2, h3]

theorem spec_C9_witness :
    detect_wsl ⟨some "Linux version 5.15.90.1-microsoft-standard-WSL2",
      none, "Linux", none⟩ = true
    ∧ detect_wsl ⟨none, none, "Windows", none⟩ = false :=
  ⟨(spec_C9 _).1 (by decide), (spec_C9 _).2.2.2.2 rfl rfl rfl⟩

/-! ## Claims about the entry script -/

/-- C1 as stated is false: with a benign configuration and a vendor
enumeration that returns no processes, `main` terminates with exit
code 1, not 0 (read_blocks_wsl.py line 122 is `sys.exit(1)`). -/
theorem spec_C1_counterexample :
    get_active_tia_portal_instances emptyDiscoveryWorld.getProcessesResult = []
    ∧ (main emptyDiscoveryWorld).exitCode = 1
    ∧ ¬ (main emptyDiscoveryWorld).exitCode = 0 := by
  refine ⟨rfl, ?_, ?_⟩ <;> decide

/-- C1 amended: when discovery yields the empty sequence (whether the
vendor call returned nothing or raised — both are converted to `[]`),
the run terminates via a clean `sys.exit(1)`: exit code 1, no
attachment attempt, nothing caught by the outer exception handler and
no exception escaping (`main` is total). -/
theorem spec_C1 (w : World)
    (hcfg : configPhase w.fs w.versionArg = Except.ok ())
    (hempty : get_active_tia_portal_instances w.getProcessesResult = []) :
    main w = ⟨1, 0, [], [], none⟩ := by
  simp [main, hcfg, hempty]

theorem spec_C1_witness : main errorDiscoveryWorld = ⟨1, 0, [], [], none⟩ :=
  spec_C1 errorDiscoveryWorld rfl rfl

/-- C4 as stated is false for non-numeric input: with two instances
and the input `"abc"`, `int()` raises `ValueError`, the outer
`except Exception` catches it, and `main` returns normally — exit code
0, not 1 (no attachment attempt is made, though). -/
theorem spec_C4_counterexample :
    parsePyInt nonNumericInputWorld.userInput = none
    ∧ (main nonNumericInputWorld).exitCode = 0
    ∧ ¬ (main nonNumericInputWorld).exitCode = 1
    ∧ (main nonNumericInputWorld).attachAttempts = 0 := by
  refine ⟨?_, ?_, ?_, ?_⟩ <;> decide

/-- C4 amended: with multiple discovered instances, an out-of-range
numeric selection terminates the run with exit code 1 via
`sys.exit(1)` (`SystemExit` is not an `Exception`), while a
non-numeric selection raises `ValueError`, which the outer handler
catches, so the run ends with exit code 0; in both cases no attachment
attempt is made and the export loop never runs. -/
theorem spec_C4 (w : World) (p q : TiaProcess) (rest : List TiaProcess)
    (hcfg : configPhase w.fs w.versionArg = Except.ok ())
    (hps : get_active_tia_portal_instances w.getProcessesResult = p :: q :: rest) :
    (parsePyInt w.userInput = none →
      main w = ⟨0, 0, [], [], some "ValueError"⟩)
    ∧ (∀ k : Int, parsePyInt w.userInput = some k →
        (k < 1 ∨ k > ((p :: q :: rest).length : Int)) →
        main w = ⟨1, 0, [], [], none⟩) := by
  constructor
  · intro hin
    simp [main, hcfg, hps, hin]
  · intro k hin hrange
    simp [main, hcfg, hps, hin]
    intro h1 h2
    exfalso
    simp [List.length_cons] at hrange
    omega

theorem spec_C4_witness : main outOfRangeInputWorld = ⟨1, 0, [], [], none⟩ :=
  (spec_C4 outOfRangeInputWorld ⟨101, some "C:\\P1\\P1.ap19"⟩
      ⟨202, some "C:\\P2\\P2.ap19"⟩ [] rfl rfl).2 5 (by decide)
    (Or.inr (by decide))

/-! ### Lemmas about the export loop -/

theorem foldl_exportStep_visited (blocks : List BlockData) (acc : ExportAcc) :
    (blocks.foldl exportStep acc).visited =
      acc.visited ++ blocks.map (fun b => b.name) := by
  induction blocks generalizing acc with
  | nil => simp
  | cons b rest ih =>
    cases hb : b.exportResult with
    | ok p => simp [List.foldl_cons, ih, exportStep, hb]
    | error e => simp [List.foldl_cons, ih, exportStep, hb]

theorem foldl_exportStep_successes (blocks : List BlockData) (acc : ExportAcc) :
    (blocks.foldl exportStep acc).successfulExports =
      acc.successfulExports + (blocks.filter isExportOk).length := by
  induction blocks generalizing acc with
  | nil => simp
  | cons b rest ih =>
    cases hb : b.exportResult with
    | ok p =>
      simp [List.foldl_cons, ih, exportStep, hb, List.filter_cons, isExportOk]
      omega
    | error e =>
      simp [List.foldl_cons, ih, exportStep, hb, List.filter_cons, isExportOk]

theorem foldl_exportStep_path (blocks : List BlockData) (acc : ExportAcc) :
    (blocks.foldl exportStep acc).exportPath =
      (match lastSuccessPath blocks with
       | some p => some p
       | none => acc.exportPath) := by
  induction blocks generalizing acc with
  | nil => simp [lastSuccessPath]
  | cons b rest ih =>
    cases hb : b.exportResult with
    | ok p =>
      cases hl : lastSuccessPath rest with
      | some q => simp [List.foldl_cons, ih, exportStep, hb, lastSuccessPath, hl]
      | none => simp [List.foldl_cons, ih, exportStep, hb, lastSuccessPath, hl]
    | error e =>
      cases hl : lastSuccessPath rest with
      | some q => simp [List.foldl_cons, ih, exportStep, hb, lastSuccessPath, hl]
      | none => simp [List.foldl_cons, ih, exportStep, hb, lastSuccessPath, hl]

theorem countFailures_add (blocks : List BlockData) :
    (blocks.filter isExportOk).length + countFailures blocks = blocks.length := by
  induction blocks with
  | nil => simp [countFailures]
  | cons b rest ih =>
    cases hb : isExportOk b <;>
      simp [countFailures, List.filter_cons, hb] at ih ⊢ <;> omega

theorem lastSuccessPath_none (blocks : List BlockData)
    (h : lastSuccessPath blocks = none) :
    countFailures blocks = blocks.length := by
  induction blocks with
  | nil => simp [countFailures]
  | cons b rest ih =>
    unfold lastSuccessPath at h
    cases hl : lastSuccessPath rest with
    | some q => rw [hl] at h; exact absurd h (by simp)
    | none =>
      rw [hl] at h
      cases hb : b.exportResult with
      | ok p => rw [hb] at h; exact absurd h (by simp)
      | error e =>
        have hok : isExportOk b = false := by simp [isExportOk, hb]
        simp [countFailures, List.filter_cons, hok] at ih ⊢
        exact ih hl

theorem lastSuccessPath_mem (blocks : List BlockData) (p : String)
    (h : lastSuccessPath blocks = some p) :
    ∃ b ∈ blocks, b.exportResult = Except.ok p := by
  induction blocks with
  | nil => simp [lastSuccessPath] at h
  | cons b rest ih =>
    unfold lastSuccessPath at h
    cases hl : lastSuccessPath rest with
    | some q =>
      rw [hl] at h
      simp at h
      subst h
      obtain ⟨b', hb', he'⟩ := ih hl
      exact ⟨b', List.mem_cons_of_mem _ hb', he'⟩
    | none =>
      rw [hl] at h
      cases hb : b.exportResult with
      | ok r =>
        rw [hb] at h
        simp at h
        subst h
        exact ⟨b, List.mem_cons_self _ _, hb⟩
      | error e => rw [hb] at h; simp at h

/-- C5: for every list of `N` blocks in which export fails for a
strict subset of the blocks, the export loop visits every block in
order (a per-block failure never aborts the remaining iterations), and
the run reports exactly `N - failures` successful exports out of `N`
total blocks — both at the loop/report level and through the per-PLC
loop of `main`.  (The side condition `hpaths` records that successful
exports return a non-empty file path, which the report's
`if export_path:` truthiness test relies on.) -/
theorem spec_C5 (blocks : List BlockData)
    (hstrict : countFailures blocks < blocks.length)
    (hpaths : ∀ b ∈ blocks, ∀ p, b.exportResult = Except.ok p →
      p.isEmpty = false) :
    (exportLoop blocks).visited = blocks.map (fun b => b.name)
    ∧ plcReport blocks =
        some (blocks.length - countFailures blocks, blocks.length)
    ∧ ∀ nm : String,
        plcLoop [⟨nm, Except.ok (), Except.ok blocks, Except.ok ()⟩] =
          (blocks.map (fun b => b.name),
           [(blocks.length - countFailures blocks, blocks.length)], none) := by
  have hvis : (exportLoop blocks).visited = blocks.map (fun b => b.name) := by
    simpa using foldl_exportStep_visited blocks ⟨none, 0, []⟩
  have hsucc : (exportLoop blocks).successfulExports =
      blocks.length - countFailures blocks := by
    have h1 := foldl_exportStep_successes blocks ⟨none, 0, []⟩
    have h2 := countFailures_add blocks
    simp only [exportLoop] at h1 ⊢
    omega
  have hsome : ∃ p, lastSuccessPath blocks = some p := by
    cases hl : lastSuccessPath blocks with
    | some p => exact ⟨p, rfl⟩
    | none => exact absurd (lastSuccessPath_none blocks hl) (by omega)
  obtain ⟨p, hp⟩ := hsome
  have hpath : (exportLoop blocks).exportPath = some p := by
    have := foldl_exportStep_path blocks ⟨none, 0, []⟩
    rw [hp] at this
    simpa [exportLoop] using this
  have hpne : p.isEmpty = false := by
    obtain ⟨b, hb, he⟩ := lastSuccessPath_mem blocks p hp
    exact hpaths b hb p he
  have hrep : plcReport blocks =
      some (blocks.length - countFailures blocks, blocks.length) := by
    simp [plcReport, pathTruthy, hpath, hpne, hsucc]
  refine ⟨hvis, hrep, ?_⟩
  intro nm
  simp [plcLoop, hrep, hvis]

theorem spec_C5_witness :
    (exportLoop sampleBlocks).visited = sampleBlocks.map (fun b => b.name)
    ∧ plcReport sampleBlocks =
        some (sampleBlocks.length - countFailures sampleBlocks,
              sampleBlocks.length)
    ∧ ∀ nm : String,
        plcLoop [⟨nm, Except.ok (), Except.ok sampleBlocks, Except.ok ()⟩] =
          (sampleBlocks.map (fun b => b.name),
           [(sampleBlocks.length - countFailures sampleBlocks,
             sampleBlocks.length)], none) :=
  spec_C5 sampleBlocks (by decide)
    (by
      intro b hb q hq
      simp [sampleBlocks] at hb
      rcases hb with rfl | rfl | rfl <;> simp_all <;> subst hq <;> decide)

end TiaClient
